import Mathlib

/-!
Formal model of the multi-terminal session layer of the UnixV4-Resurrection
repository.

The model is a shallow embedding of two source classes:

* `TerminalSync` (cross-tab communication over a BroadcastChannel), and
* `MultiTerminalManager` (the unit registry and spawner in
  `src/unixbox/src/features/multi-terminal/TerminalSpawner.ts`).

JavaScript state is represented explicitly: each class instance becomes a
state record, each method becomes a function from the state (plus its
arguments) to the new state together with a list of observable effects
(bus messages posted, callbacks invoked, windows opened or closed, device
calls, console errors/warnings).  A JS `Set<number>` is represented as an
insertion-ordered duplicate-free `List Nat`, matching `Set` iteration
order; a JS `Map<number, TerminalInfo>` whose key set is fixed at
construction time (keys 0..7, never added or removed afterwards) is
represented as a function `Nat → Option TerminalInfo`.

The `timestamp` field of messages (`Date.now()` in the source) is omitted
from the model: no handler in the source ever reads it (it is diagnostic
only), so it does not influence any behavior modelled here.
-/

namespace UnixV4

/-- The `MessageType` union of `TerminalSync.ts`:
`'register' | 'unregister' | 'output' | 'input' | 'ping' | 'pong'`. -/
inductive MessageType
  | register
  | unregister
  | output
  | input
  | ping
  | pong
deriving DecidableEq, Repr

/-- Payload of a `TerminalMessage`: `data?: string | number[]` in the source.
`none` models an absent `data` field. -/
inductive MsgData
  | str (s : String)
  | nums (l : List Int)
deriving DecidableEq, Repr

/-- The `TerminalMessage` interface of `TerminalSync.ts` (without the
diagnostic-only `timestamp` field; see the file header). -/
structure TerminalMessage where
  type : MessageType
  unit : Nat
  data : Option MsgData := none
  tabId : String
deriving DecidableEq, Repr

/-- Mutable state of a `TerminalSync` instance: its role flag, its unique
tab identifier, and `registeredUnits : Set<number>` in insertion order. -/
structure SyncState where
  isPrimary : Bool
  tabId : String
  registeredUnits : List Nat
deriving DecidableEq, Repr

/-- Observable effects of the modelled operations. -/
inductive Effect
  | send (m : TerminalMessage)
  | closeChannel
  | outputCb (unit : Nat) (data : String)
  | inputCb (unit : Nat) (data : String)
  | renderLocal (unit ch : Nat)
  | deviceInput (unit : Nat) (c : Char)
  | openWindow (unit : Nat)
  | closeWindow (unit : Nat)
  | warnRoleViolation
  | warnAlreadyInUse (unit : Nat)
  | warnCannotClosePrimary
  | errorCapacity
  | errorInvalidUnit (unit : Nat)
  | errorOpenFailed
deriving DecidableEq, Repr

/-- `Set.add` on the insertion-ordered list model of a JS `Set<number>`. -/
def jsSetAdd (l : List Nat) (u : Nat) : List Nat :=
  if u ∈ l then l else l ++ [u]

/-- `Set.delete` on the insertion-ordered list model of a JS `Set<number>`. -/
def jsSetDelete (l : List Nat) (u : Nat) : List Nat :=
  l.erase u

/-- Strict lexicographic comparison of char lists by code point, i.e. the
comparison JavaScript applies to strings (for code points below the
surrogate range, UTF-16 code-unit order and code-point order agree, and
decimal digit strings are in that range). -/
def lexLtChars : List Char → List Char → Bool
  | [], [] => false
  | [], _ :: _ => true
  | _ :: _, [] => false
  | a :: as, b :: bs =>
    if a < b then true
    else if b < a then false
    else lexLtChars as bs

/-- The key JavaScript's default sort comparator uses for a number:
its decimal string, compared lexicographically. -/
def jsSortKey (n : Nat) : List Char :=
  (Nat.repr n).data

/-- Nonstrict string-order comparison of two numbers, as used by a JS
`Array.prototype.sort()` call with no comparator: `a` may precede `b`
iff `String(b) < String(a)` fails. -/
def jsKeyLe (a b : Nat) : Bool :=
  ! lexLtChars (jsSortKey b) (jsSortKey a)

/-- The ordering relation realized by `Array.prototype.sort()` with no
comparator on an array of numbers. -/
def jsNumLe (a b : Nat) : Prop :=
  jsKeyLe a b = true

instance : DecidableRel jsNumLe := fun a b => by
  unfold jsNumLe
  infer_instance

def unregisterMessage (tabId : String) (u : Nat) : TerminalMessage :=
  { type := .unregister, unit := u, data := none, tabId := tabId }

/-- The `output` message published for one intercepted character `ch`
destined for unit `u` (`String.fromCharCode(char)` payload). -/
def outputMessage (tabId : String) (u ch : Nat) : TerminalMessage :=
  { type := .output, unit := u, data := some (.str (String.singleton (Char.ofNat ch))),
    tabId := tabId }

namespace TerminalSync

/-- `new TerminalSync(isPrimary)`: fresh state with an externally supplied
unique tab id and an empty `registeredUnits` set. -/
def new (isPrimary : Bool) (tabId : String) : SyncState :=
  { isPrimary := isPrimary, tabId := tabId, registeredUnits := [] }

/-- `TerminalSync.register(unit)`: add `unit` to the local set, then post a
`register` message. -/
def register (st : SyncState) (unit : Nat) : SyncState × List Effect :=
  ({ st with registeredUnits := jsSetAdd st.registeredUnits unit },
   [.send { type := .register, unit := unit, data := none, tabId := st.tabId }])

/-- `TerminalSync.unregister(unit)`: delete `unit` from the local set, then
post an `unregister` message. -/
def unregister (st : SyncState) (unit : Nat) : SyncState × List Effect :=
  ({ st with registeredUnits := jsSetDelete st.registeredUnits unit },
   [.send (unregisterMessage st.tabId unit)])

/-- `TerminalSync.sendInput(unit, data)`: post an `input` message. -/
def sendInput (st : SyncState) (unit : Nat) (data : String) : List Effect :=
  [.send { type := .input, unit := unit, data := some (.str data), tabId := st.tabId }]

/-- `TerminalSync.broadcastOutput(unit, data)`: defensive role check, then
post an `output` message. -/
def broadcastOutput (st : SyncState) (unit : Nat) (data : String) : List Effect :=
  if !st.isPrimary then
    [.warnRoleViolation]
  else
    [.send { type := .output, unit := unit, data := some (.str data), tabId := st.tabId }]

/-- `TerminalSync.handleMessage(event)`: the message handler attached to the
BroadcastChannel.  Self-messages are dropped first; then the handler
switches on `msg.type`.  Callback invocation (`outputCallbacks.forEach`,
`inputCallbacks.forEach`) is modelled by the `outputCb` / `inputCb`
effects, which the manager-level model resolves further. -/
def handleMessage (st : SyncState) (msg : TerminalMessage) : SyncState × List Effect :=
  if msg.tabId = st.tabId then
    (st, [])
  else
    match msg.type with
    | .register =>
        ({ st with registeredUnits := jsSetAdd st.registeredUnits msg.unit },
         if st.isPrimary then
           [.send { type := .pong, unit := msg.unit, data := none, tabId := st.tabId }]
         else [])
    | .unregister =>
        ({ st with registeredUnits := jsSetDelete st.registeredUnits msg.unit }, [])
    | .output =>
        (st,
         match msg.data with
         | some (.str s) => if !st.isPrimary then [.outputCb msg.unit s] else []
         | _ => [])
    | .input =>
        (st,
         match msg.data with
         | some (.str s) => if st.isPrimary then [.inputCb msg.unit s] else []
         | _ => [])
    | .ping =>
        (st, [.send { type := .pong, unit := msg.unit, data := none, tabId := st.tabId }])
    | .pong =>
        (st, [])

/-- `TerminalSync.getActiveTerminals()`: `Array.from(this.registeredUnits).sort()`.
The comparator-free JS sort orders numbers by their decimal strings; any
compliant sort produces the unique `jsNumLe`-sorted permutation because
distinct naturals have distinct decimal strings. -/
def getActiveTerminals (st : SyncState) : List Nat :=
  List.insertionSort jsNumLe st.registeredUnits

/-- `TerminalSync.isUnitRegistered(unit)`. -/
def isUnitRegistered (st : SyncState) (unit : Nat) : Bool :=
  unit ∈ st.registeredUnits

/-- `TerminalSync.ping()`: post a broadcast ping; the source uses `unit: -1`,
which the `Nat`-unit model is never asked about (no claim concerns `ping`),
so the sentinel is represented by the otherwise unused value `maxUnits`. -/
def pingEffects (st : SyncState) : List Effect :=
  [.send { type := .ping, unit := 8, data := none, tabId := st.tabId }]

/-- The `registeredUnits.forEach(unit => this.unregister(unit))` loop of
`TerminalSync.destroy()`.  `Set.forEach` visits the elements present at the
start in insertion order; the callback deletes exactly the element being
visited, so every original element is visited once. -/
def destroyLoop : List Nat → SyncState → SyncState × List Effect
  | [], st => (st, [])
  | u :: rest, st =>
    let r1 := unregister st u
    let r2 := destroyLoop rest r1.1
    (r2.1, r1.2 ++ r2.2)

/-- `TerminalSync.destroy()`: unregister every locally known unit, then close
the channel. -/
def destroy (st : SyncState) : SyncState × List Effect :=
  let r := destroyLoop st.registeredUnits st
  (r.1, r.2 ++ [.closeChannel])

end TerminalSync

/-- Opaque identity of a `Window` object returned by `window.open`. -/
abbrev WindowHandle := Nat

/-- The `TerminalInfo` interface of `TerminalSpawner.ts`. -/
structure TerminalInfo where
  unit : Nat
  name : String
  inUse : Bool
  isPrimary : Bool
  windowRef : Option WindowHandle
deriving DecidableEq, Repr

/-- Mutable state of a `MultiTerminalManager` instance.  The
`terminals : Map<number, TerminalInfo>` has keys exactly `0..7`, fixed by
the constructor and never added to or removed from, so it is modelled as
`Nat → Option TerminalInfo` (with `none` outside the key set). -/
structure ManagerState where
  terms : Nat → Option TerminalInfo
  sync : SyncState
  vt52PutIntercepted : Bool

/-- Pointwise update of the map model, i.e. mutating the `TerminalInfo`
record stored under key `k`. -/
def updMap (m : Nat → Option TerminalInfo) (k : Nat) (v : TerminalInfo) :
    Nat → Option TerminalInfo :=
  fun x => if x = k then some v else m x

namespace MultiTerminalManager

/-- `maxUnits = 8`: the VT52 supports units 0-7. -/
def maxUnits : Nat := 8

/-- `primaryUnit = 0`. -/
def primaryUnit : Nat := 0

/-- The `TerminalInfo` record the constructor stores for unit `i`. -/
def initialTerminalInfo (i : Nat) : TerminalInfo :=
  { unit := i
    name := "TTY" ++ Nat.repr i
    inUse := i == primaryUnit
    isPrimary := i == primaryUnit
    windowRef := none }

/-- The `MultiTerminalManager` constructor: create a primary `TerminalSync`
(with an externally generated tab id), fill the registry with units 0..7
(only unit 0 in use, and primary), then `register(0)`.  The `onInput`
subscription it installs is modelled separately by `primaryOnInput`. -/
def new (tabId : String) : ManagerState × List Effect :=
  let terms0 : Nat → Option TerminalInfo := fun i =>
    if i < maxUnits then some (initialTerminalInfo i) else none
  let sync0 := TerminalSync.new true tabId
  let r := TerminalSync.register sync0 primaryUnit
  ({ terms := terms0, sync := r.1, vt52PutIntercepted := false }, r.2)

/-- The input callback the constructor registers with
`terminalSync.onInput`: if `window.vt52Input` is installed, feed the
payload to the device one character at a time, in array order, addressed
to the message's unit. -/
def primaryOnInput (vt52InputInstalled : Bool) (unit : Nat) (data : String) : List Effect :=
  if vt52InputInstalled then
    data.data.map fun c => Effect.deviceInput unit c
  else []

/-- The loop-body test of `findNextAvailableUnit`: `term && !term.inUse`
for `term = this.terminals.get(i)`. -/
def unitFreeB (st : ManagerState) (i : Nat) : Bool :=
  match st.terms i with
  | some term => !term.inUse
  | none => false

/-- `MultiTerminalManager.findNextAvailableUnit()`: scan keys 1..7 in
ascending order and return the first whose record exists and is not in
use. -/
def findNextAvailableUnit (st : ManagerState) : Option Nat :=
  (List.range' 1 (maxUnits - 1)).find? (unitFreeB st)

/-- `MultiTerminalManager.spawnTerminal(unit?)`.  `openResult` is the value
`window.open` returns for the secondary-terminal URL: `some w` on success,
`none` when the popup is blocked.  Returns the new state, the method's
return value (`Window | null`), and the effects. -/
def spawnTerminal (st : ManagerState) (unitArg : Option Nat)
    (openResult : Option WindowHandle) :
    ManagerState × Option WindowHandle × List Effect :=
  let targetUnit? := match unitArg with
    | some u => some u
    | none => findNextAvailableUnit st
  match targetUnit? with
  | none => (st, none, [.errorCapacity])
  | some targetUnit =>
    match st.terms targetUnit with
    | none => (st, none, [.errorInvalidUnit targetUnit])
    | some term =>
      if term.inUse && !term.isPrimary then
        (st, term.windowRef, [.warnAlreadyInUse targetUnit])
      else
        -- term.inUse = true, then window.open
        match openResult with
        | some w =>
            let terms1 := updMap st.terms targetUnit { term with inUse := true, windowRef := some w }
            ({ st with terms := terms1 }, some w, [.openWindow targetUnit])
        | none =>
            -- rollback: term.inUse = false (windowRef untouched)
            let terms1 := updMap st.terms targetUnit { term with inUse := false }
            ({ st with terms := terms1 }, none, [.openWindow targetUnit, .errorOpenFailed])

/-- `MultiTerminalManager.closeTerminal(unit)`: refuse unknown units and the
primary; otherwise close the window if one is held, mark the unit free,
drop the handle, and `unregister` it on the sync channel.  The
`windowRef.closed` test guarding `windowRef.close()` reads external window
state and is not modelled; the `closeWindow` effect stands for the
(idempotent) close request. -/
def closeTerminal (st : ManagerState) (unit : Nat) : ManagerState × List Effect :=
  match st.terms unit with
  | none => (st, [.errorInvalidUnit unit])
  | some term =>
    if term.isPrimary then
      (st, [.warnCannotClosePrimary])
    else
      let closeEffs := match term.windowRef with
        | some _ => [Effect.closeWindow unit]
        | none => []
      let terms1 := updMap st.terms unit { term with inUse := false, windowRef := none }
      let st1 := { st with terms := terms1 }
      let r := TerminalSync.unregister st1.sync unit
      ({ st1 with sync := r.1 }, closeEffs ++ r.2)

/-- `MultiTerminalManager.getActiveTerminals()`:
`Array.from(this.terminals.values()).filter(t => t.inUse)` (map values in
key insertion order 0..7). -/
def getActiveTerminals (st : ManagerState) : List TerminalInfo :=
  ((List.range maxUnits).filterMap st.terms).filter fun t => t.inUse

/-- `MultiTerminalManager.getActiveCount()`. -/
def getActiveCount (st : ManagerState) : Nat :=
  (getActiveTerminals st).length

/-- `MultiTerminalManager.getTerminalInfo(unit)`. -/
def getTerminalInfo (st : ManagerState) (unit : Nat) : Option TerminalInfo :=
  st.terms unit

/-- `MultiTerminalManager.isUnitAvailable(unit)`. -/
def isUnitAvailable (st : ManagerState) (unit : Nat) : Bool :=
  match st.terms unit with
  | some term => !term.inUse
  | none => false

/-- The `this.terminals.forEach` loop of `MultiTerminalManager.destroy()`:
close every in-use secondary.  The `Map` is iterated in key insertion
order (0..7); values are read at visit time. -/
def closeAllLoop : List Nat → ManagerState → ManagerState × List Effect
  | [], st => (st, [])
  | i :: rest, st =>
    match st.terms i with
    | some term =>
      if !term.isPrimary && term.inUse then
        let r1 := closeTerminal st term.unit
        let r2 := closeAllLoop rest r1.1
        (r2.1, r1.2 ++ r2.2)
      else closeAllLoop rest st
    | none => closeAllLoop rest st

/-- `MultiTerminalManager.destroy()`: close all in-use secondaries, then
destroy the sync instance. -/
def destroy (st : ManagerState) : ManagerState × List Effect :=
  let r1 := closeAllLoop (List.range maxUnits) st
  let r2 := TerminalSync.destroy r1.1.sync
  ({ r1.1 with sync := r2.1 }, r1.2 ++ r2.2)

/-- Behavior of `window.vt52Put` after `interceptVt52Output()` has wrapped
it: always call the original (the local render path) first, then, if the
unit's record says it is an in-use secondary, broadcast the character
(`String.fromCharCode(char)`) on the sync channel. -/
def interceptedVt52Put (st : ManagerState) (unit ch : Nat) : List Effect :=
  Effect.renderLocal unit ch ::
    (match st.terms unit with
     | some termInfo =>
       if !termInfo.isPrimary && termInfo.inUse then
         TerminalSync.broadcastOutput st.sync unit (String.singleton (Char.ofNat ch))
       else []
     | none => [])

/-- Device-call trace produced when a primary context receives bus message
`msg`: `TerminalSync.handleMessage` runs, and each `inputCb` effect (the
`inputCallbacks.forEach` dispatch) invokes the constructor's `onInput`
callback, which is `primaryOnInput`. -/
def deviceInputTrace (st : SyncState) (vt52InputInstalled : Bool)
    (msg : TerminalMessage) : List Effect :=
  (TerminalSync.handleMessage st msg).2.flatMap fun e =>
    match e with
    | .inputCb u s => primaryOnInput vt52InputInstalled u s
    | _ => []

end MultiTerminalManager

/-- One externally triggered operation on a `MultiTerminalManager`:
a spawn request (with its `window.open` outcome), a close request, a
`destroy()`, or a bus message delivered to the sync handler. -/
inductive MOp
  | spawn (unitArg : Option Nat) (openResult : Option WindowHandle)
  | close (unit : Nat)
  | destroy
  | recv (msg : TerminalMessage)
deriving DecidableEq, Repr

/-- State transition of one operation (effects discarded). -/
def applyOp (st : ManagerState) : MOp → ManagerState
  | .spawn u o => (MultiTerminalManager.spawnTerminal st u o).1
  | .close u => (MultiTerminalManager.closeTerminal st u).1
  | .destroy => (MultiTerminalManager.destroy st).1
  | .recv m => { st with sync := (TerminalSync.handleMessage st.sync m).1 }

/-- State reached from a fresh `MultiTerminalManager` after a sequence of
operations. -/
def runOps (tabId : String) (ops : List MOp) : ManagerState :=
  ops.foldl applyOp (MultiTerminalManager.new tabId).1

/-- Every stored session record carries the constructor's role flag:
`isPrimary` is true exactly for unit 0. -/
def primaryFlagsWF (f : Nat → Option TerminalInfo) : Prop :=
  ∀ i t, f i = some t → t.isPrimary = (i == MultiTerminalManager.primaryUnit)

/-- Unit 0 has a record in the registry. -/
def unitZeroPresent (f : Nat → Option TerminalInfo) : Prop :=
  ∃ t, f MultiTerminalManager.primaryUnit = some t

/-- Structural manager invariant used in the reachability proofs. -/
def mgrInv (f : Nat → Option TerminalInfo) : Prop :=
  primaryFlagsWF f ∧ unitZeroPresent f

/-- Unit 0's record is present and marked in use. -/
def unitZeroInUse (f : Nat → Option TerminalInfo) : Prop :=
  ∃ t, f MultiTerminalManager.primaryUnit = some t ∧ t.inUse = true

/-- A freshly constructed manager (no operations applied). -/
def freshManager : ManagerState :=
  runOps "tab-primo" []

/-- Manager after successfully spawning unit 3 (window handle 7). -/
def spawned3Manager : ManagerState :=
  runOps "tab-primo" [MOp.spawn (some 3) (some 7)]

/-- Manager after successfully spawning every secondary unit 1..7. -/
def allBusyManager : ManagerState :=
  runOps "tab-primo"
    [MOp.spawn (some 1) (some 1), MOp.spawn (some 2) (some 2), MOp.spawn (some 3) (some 3),
     MOp.spawn (some 4) (some 4), MOp.spawn (some 5) (some 5), MOp.spawn (some 6) (some 6),
     MOp.spawn (some 7) (some 7)]

/-- A reachable `TerminalSync` state of a primary tab that registered its
own unit 2 and then observed a peer tab register unit 10. -/
def peerRegisteredSync : SyncState :=
  (TerminalSync.handleMessage
    (TerminalSync.register (TerminalSync.new true "tab-primo") 2).1
    { type := .register, unit := 10, data := none, tabId := "tab-second" }).1

/-- A reachable `TerminalSync` state of a primary tab that registered its
own unit 0 only. -/
def registeredZeroSync : SyncState :=
  (TerminalSync.register (TerminalSync.new true "tab-primo") 0).1

theorem updMap_same (m : Nat → Option TerminalInfo) (k : Nat) (v : TerminalInfo) :
    updMap m k v k = some v := by
  simp [updMap]

theorem updMap_other (m : Nat → Option TerminalInfo) (k : Nat) (v : TerminalInfo)
    (x : Nat) (h : x ≠ k) : updMap m k v x = m x := by
  simp [updMap, h]

theorem updMap_self (m : Nat → Option TerminalInfo) (k : Nat) (t : TerminalInfo)
    (h : m k = some t) : updMap m k t = m := by
  funext x
  by_cases hx : x = k
  · subst hx; simp [updMap, h]
  · simp [updMap, hx]

theorem find?_range'_first {p : Nat → Bool} :
    ∀ (n s u : Nat), (List.range' s n).find? p = some u →
      s ≤ u ∧ u < s + n ∧ p u = true ∧ ∀ v, s ≤ v → v < u → p v = false := by
  intro n
  induction n with
  | zero =>
    intro s u h
    simp [List.range'] at h
  | succ n ih =>
    intro s u h
    rw [List.range'_succ] at h
    by_cases hs : p s = true
    · rw [List.find?_cons_of_pos _ hs] at h
      obtain rfl : s = u := by simpa using h
      exact ⟨le_rfl, by omega, hs, fun v hv1 hv2 => absurd hv1 (by omega)⟩
    · rw [List.find?_cons_of_neg _ (by simpa using hs)] at h
      obtain ⟨h1, h2, h3, h4⟩ := ih (s + 1) u h
      refine ⟨by omega, by omega, h3, ?_⟩
      intro v hv1 hv2
      rcases Nat.eq_or_lt_of_le hv1 with rfl | hlt
      · simpa using hs
      · exact h4 v (by omega) hv2

theorem find?_range'_of_first {p : Nat → Bool} :
    ∀ (n s u : Nat), s ≤ u → u < s + n → p u = true →
      (∀ v, s ≤ v → v < u → p v = false) → (List.range' s n).find? p = some u := by
  intro n
  induction n with
  | zero =>
    intro s u h1 h2 _ _
    exfalso
    omega
  | succ n ih =>
    intro s u h1 h2 hp hfirst
    rw [List.range'_succ]
    rcases Nat.eq_or_lt_of_le h1 with rfl | hlt
    · rw [List.find?_cons_of_pos _ hp]
    · have hps : p s = false := hfirst s le_rfl hlt
      rw [List.find?_cons_of_neg _ (by simp [hps])]
      exact ih (s + 1) u hlt (by omega) hp fun v hv1 hv2 => hfirst v (by omega) hv2

theorem destroyLoop_run : ∀ (l : List Nat) (st : SyncState), st.registeredUnits = l →
    TerminalSync.destroyLoop l st
      = ({ st with registeredUnits := [] },
         l.map fun u => Effect.send (unregisterMessage st.tabId u)) := by
  intro l
  induction l with
  | nil =>
    intro st h
    obtain ⟨p, tid, ru⟩ := st
    simp only at h
    subst h
    rfl
  | cons u rest ih =>
    intro st h
    obtain ⟨p, tid, ru⟩ := st
    simp only at h
    subst h
    simp only [TerminalSync.destroyLoop, TerminalSync.unregister, jsSetDelete,
      List.erase_cons_head]
    rw [ih { isPrimary := p, tabId := tid, registeredUnits := rest } rfl]
    simp

/-- C4: a context never acts on a message whose origin (`tabId`) equals its
own identifier: `handleMessage` returns the state unchanged and performs no
effect (no registry update, no callback invocation, no message in
response), regardless of the message's kind. -/
theorem C4_self_message_is_ignored (st : SyncState) (msg : TerminalMessage)
    (h : msg.tabId = st.tabId) :
    TerminalSync.handleMessage st msg = (st, []) := by
  simp [TerminalSync.handleMessage, h]

/-- Witness for C4: a fresh primary sync receives its own register message
and nothing happens. -/
theorem C4_self_message_is_ignored_witness :
    TerminalSync.handleMessage (TerminalSync.new true "tab-primo")
        { type := .register, unit := 3, data := none, tabId := "tab-primo" }
      = (TerminalSync.new true "tab-primo", []) :=
  C4_self_message_is_ignored _ _ rfl

/-- C3: on receiving an `input` message with string payload `s` for unit
`u` from another tab, a primary context (with the device input primitive
installed) calls `vt52Input` exactly once per character of `s`, each call
addressed to `u`, in array order of `s`, with no reordering. -/
theorem C3_input_injected_per_char_in_order (st : SyncState) (msg : TerminalMessage)
    (s : String) (hp : st.isPrimary = true) (hne : msg.tabId ≠ st.tabId)
    (ht : msg.type = MessageType.input) (hd : msg.data = some (.str s)) :
    MultiTerminalManager.deviceInputTrace st true msg
      = s.data.map fun c => Effect.deviceInput msg.unit c := by
  simp [MultiTerminalManager.deviceInputTrace, TerminalSync.handleMessage, hne, ht, hd, hp,
    MultiTerminalManager.primaryOnInput]

/-- Witness for C3: payload "abc" for unit 3 produces the three device
calls in order. -/
theorem C3_input_injected_per_char_in_order_witness :
    MultiTerminalManager.deviceInputTrace (TerminalSync.new true "tab-primo") true
        { type := .input, unit := 3, data := some (.str "abc"), tabId := "tab-second" }
      = [Effect.deviceInput 3 'a', Effect.deviceInput 3 'b', Effect.deviceInput 3 'c'] :=
  (C3_input_injected_per_char_in_order (TerminalSync.new true "tab-primo") _ "abc"
    rfl (by decide) rfl rfl).trans (by decide)

/-- C7: `unregister` is idempotent on the local registry: unregistering a
unit that is not in the local registered set leaves the registered-units
view unchanged, and (on a duplicate-free registry, which every reachable
one is) unregistering twice in a row leaves the same registry state as
once. -/
theorem C7_unregister_idempotent_on_registry (st : SyncState) (u : Nat) :
    (u ∉ st.registeredUnits →
      (TerminalSync.unregister st u).1.registeredUnits = st.registeredUnits) ∧
    (st.registeredUnits.Nodup →
      (TerminalSync.unregister (TerminalSync.unregister st u).1 u).1.registeredUnits
        = (TerminalSync.unregister st u).1.registeredUnits) := by
  constructor
  · intro h
    simp [TerminalSync.unregister, jsSetDelete, List.erase_of_not_mem h]
  · intro h
    simp only [TerminalSync.unregister, jsSetDelete]
    exact List.erase_of_not_mem h.not_mem_erase

/-- Witness for C7: unregistering the free unit 5 on a registry holding
only unit 0 changes nothing, and doing it twice equals doing it once. -/
theorem C7_unregister_idempotent_on_registry_witness :
    ((TerminalSync.unregister registeredZeroSync 5).1.registeredUnits
        = registeredZeroSync.registeredUnits) ∧
    ((TerminalSync.unregister (TerminalSync.unregister registeredZeroSync 5).1 5).1.registeredUnits
        = (TerminalSync.unregister registeredZeroSync 5).1.registeredUnits) :=
  ⟨(C7_unregister_idempotent_on_registry registeredZeroSync 5).1 (by decide),
   (C7_unregister_idempotent_on_registry registeredZeroSync 5).2 (by decide)⟩

/-- C10: `TerminalSync.destroy()` unregisters every unit in the local
registered-units view at the time of the call — whether this context or a
peer registered it — posting one `unregister` message per unit, leaves the
local registered set empty, and only then closes the channel. -/
theorem C10_destroy_unregisters_every_local_unit (st : SyncState) :
    TerminalSync.destroy st
      = ({ st with registeredUnits := [] },
         (st.registeredUnits.map fun u => Effect.send (unregisterMessage st.tabId u))
           ++ [Effect.closeChannel]) := by
  simp [TerminalSync.destroy, destroyLoop_run st.registeredUnits st rfl]

/-- C9: calling `spawnTerminal` with an explicit unit whose record is in
use and not primary changes no state, publishes nothing, opens no window,
and returns the stored window handle (or null when none is stored). -/
theorem C9_spawn_on_busy_secondary_is_noop (st : ManagerState) (u : Nat) (t : TerminalInfo)
    (o : Option WindowHandle) (hu : st.terms u = some t)
    (hin : t.inUse = true) (hsec : t.isPrimary = false) :
    MultiTerminalManager.spawnTerminal st (some u) o
      = (st, t.windowRef, [Effect.warnAlreadyInUse u]) := by
  simp [MultiTerminalManager.spawnTerminal, hu, hin, hsec]

theorem lexLtChars_asymm : ∀ l1 l2, lexLtChars l1 l2 = true → lexLtChars l2 l1 = false
  | [], [] => by simp [lexLtChars]
  | [], _ :: _ => by simp [lexLtChars]
  | _ :: _, [] => by simp [lexLtChars]
  | a :: as, b :: bs => by
    simp only [lexLtChars]
    rcases lt_trichotomy a b with h | h | h
    · intro _
      simp [h, lt_asymm h]
    · subst h
      simp only [lt_irrefl, if_false]
      exact lexLtChars_asymm as bs
    · intro hContra
      simp [lt_asymm h, h] at hContra

theorem lexLtChars_trans :
    ∀ l1 l2 l3, lexLtChars l1 l2 = true → lexLtChars l2 l3 = true → lexLtChars l1 l3 = true
  | [], [], _ => by simp [lexLtChars]
  | [], _ :: _, [] => by simp [lexLtChars]
  | [], _ :: _, _ :: _ => by simp [lexLtChars]
  | _ :: _, [], _ => by simp [lexLtChars]
  | _ :: _, _ :: _, [] => by simp [lexLtChars]
  | a :: as, b :: bs, c :: cs => by
    simp only [lexLtChars]
    intro h1 h2
    rcases lt_trichotomy a b with hab | hab | hab
    · rcases lt_trichotomy b c with hbc | hbc | hbc
      · simp [lt_trans hab hbc]
      · subst hbc
        simp [hab]
      · simp [lt_asymm hbc, hbc] at h2
    · subst hab
      rcases lt_trichotomy a c with hac | hac | hac
      · simp [hac]
      · subst hac
        simp only [lt_irrefl, if_false] at h1 h2 ⊢
        exact lexLtChars_trans as bs cs h1 h2
      · simp [lt_asymm hac, hac] at h2
    · simp [lt_asymm hab, hab] at h1

theorem lexLtChars_eq_of_not_lt :
    ∀ l1 l2, lexLtChars l1 l2 = false → lexLtChars l2 l1 = false → l1 = l2
  | [], [] => by simp
  | [], _ :: _ => by simp [lexLtChars]
  | _ :: _, [] => by simp [lexLtChars]
  | a :: as, b :: bs => by
    simp only [lexLtChars]
    intro h1 h2
    rcases lt_trichotomy a b with hab | hab | hab
    · simp [hab] at h1
    · subst hab
      simp only [lt_irrefl, if_false] at h1 h2
      rw [lexLtChars_eq_of_not_lt as bs h1 h2]
    · simp [hab] at h2

theorem jsNumLe_total (a b : Nat) : jsNumLe a b ∨ jsNumLe b a := by
  unfold jsNumLe jsKeyLe
  by_cases h : lexLtChars (jsSortKey b) (jsSortKey a) = true
  · right
    simp [lexLtChars_asymm _ _ h]
  · left
    simp only [Bool.not_eq_true] at h
    simp [h]

theorem jsNumLe_trans (a b c : Nat) (h1 : jsNumLe a b) (h2 : jsNumLe b c) : jsNumLe a c := by
  unfold jsNumLe jsKeyLe at h1 h2 ⊢
  simp only [Bool.not_eq_eq_eq_not, Bool.not_true] at h1 h2
  by_contra hca
  simp only [Bool.not_eq_true, Bool.not_eq_eq_eq_not, Bool.not_true, Bool.not_eq_false] at hca
  by_cases hbc : lexLtChars (jsSortKey b) (jsSortKey c) = true
  · exact absurd (lexLtChars_trans _ _ _ hbc hca) (by simp [h1])
  · have hce : jsSortKey c = jsSortKey b :=
      lexLtChars_eq_of_not_lt _ _ h2 (by simpa using hbc)
    rw [hce] at hca
    exact absurd hca (by simp [h1])

theorem jsKeyLe_digits : ∀ a, a ≤ 9 → ∀ b, b ≤ 9 → (jsKeyLe a b = true ↔ a ≤ b) := by
  decide

/-- C8 (amended): `getActiveTerminals` returns exactly the locally
registered units (a permutation of the registered set), ordered by the JS
default sort — lexicographically by decimal string — which coincides with
ascending numeric order whenever all registered units are single digits
(in particular for the valid unit range 0..7). -/
theorem C8_activeUnits_sorted (st : SyncState) :
    (TerminalSync.getActiveTerminals st).Perm st.registeredUnits ∧
    List.Sorted jsNumLe (TerminalSync.getActiveTerminals st) ∧
    ((∀ u ∈ st.registeredUnits, u ≤ 9) →
      List.Sorted (fun a b : Nat => a ≤ b) (TerminalSync.getActiveTerminals st)) := by
  haveI : IsTotal Nat jsNumLe := ⟨jsNumLe_total⟩
  haveI : IsTrans Nat jsNumLe := ⟨jsNumLe_trans⟩
  refine ⟨List.perm_insertionSort jsNumLe st.registeredUnits,
    List.sorted_insertionSort jsNumLe st.registeredUnits, ?_⟩
  intro hb
  have hperm := List.perm_insertionSort jsNumLe st.registeredUnits
  have hs := List.sorted_insertionSort jsNumLe st.registeredUnits
  refine List.Pairwise.imp_of_mem ?_ hs
  intro a b ha hb2 hr
  exact (jsKeyLe_digits a (hb a (hperm.mem_iff.mp ha)) b (hb b (hperm.mem_iff.mp hb2))).mp hr

/-- Witness for C8: the registry {0} (all single digits) gives a result
that is a permutation of the registry and numerically sorted. -/
theorem C8_activeUnits_sorted_witness :
    (TerminalSync.getActiveTerminals registeredZeroSync).Perm
        registeredZeroSync.registeredUnits ∧
    List.Sorted (fun a b : Nat => a ≤ b)
        (TerminalSync.getActiveTerminals registeredZeroSync) :=
  ⟨(C8_activeUnits_sorted registeredZeroSync).1,
   (C8_activeUnits_sorted registeredZeroSync).2.2 (by decide)⟩

/-- C8 counterexample: with the reachable registered set {2, 10} (own unit
2 plus a peer-registered unit 10), `getActiveTerminals` returns [10, 2],
which is not in ascending numeric order, refuting the claim for every
possible content of the registered set. -/
theorem C8_counterexample_lexicographic_sort :
    peerRegisteredSync.registeredUnits = [2, 10] ∧
    TerminalSync.getActiveTerminals peerRegisteredSync = [10, 2] ∧
    ¬ List.Sorted (fun a b : Nat => a ≤ b)
        (TerminalSync.getActiveTerminals peerRegisteredSync) := by
  refine ⟨by decide, by decide, ?_⟩
  have heq : TerminalSync.getActiveTerminals peerRegisteredSync = [10, 2] := by decide
  rw [heq]
  decide

/-- C5: `findNextAvailableUnit` scans units 1..7 in ascending order (never
unit 0) and returns the first whose `inUse` flag is false; it returns none
exactly when every unit 1..7 is in use, and in that case a spawn with no
explicit unit reports a capacity error, returns null, and creates no
session (no state change). -/
theorem C5_nextFreeUnit_scan_and_capacity (st : ManagerState) :
    (∀ u, MultiTerminalManager.findNextAvailableUnit st = some u →
        1 ≤ u ∧ u < MultiTerminalManager.maxUnits ∧ MultiTerminalManager.unitFreeB st u = true ∧
        ∀ v, v < u → 1 ≤ v → MultiTerminalManager.unitFreeB st v = false) ∧
    (MultiTerminalManager.findNextAvailableUnit st = none ↔
        ∀ v, v < MultiTerminalManager.maxUnits → 1 ≤ v → MultiTerminalManager.unitFreeB st v = false) ∧
    (∀ o, (∀ v, v < MultiTerminalManager.maxUnits → 1 ≤ v → MultiTerminalManager.unitFreeB st v = false) →
        MultiTerminalManager.spawnTerminal st none o
          = (st, none, [Effect.errorCapacity])) := by
  have hmax : MultiTerminalManager.maxUnits = 8 := rfl
  refine ⟨?_, ?_, ?_⟩
  · intro u h
    obtain ⟨h1, h2, h3, h4⟩ := find?_range'_first 7 1 u h
    exact ⟨h1, by omega, h3, fun v hv1 hv2 => h4 v hv2 hv1⟩
  · constructor
    · intro h v hv1 hv2
      have hm : v ∈ List.range' 1 7 := List.mem_range'_1.mpr ⟨hv2, by omega⟩
      have := List.find?_eq_none.mp h v hm
      simpa using this
    · intro h
      apply List.find?_eq_none.mpr
      intro x hx
      obtain ⟨hx1, hx2⟩ := List.mem_range'_1.mp hx
      simp [h x (by omega) hx1]
  · intro o hall
    have hnone : MultiTerminalManager.findNextAvailableUnit st = none := by
      apply List.find?_eq_none.mpr
      intro x hx
      obtain ⟨hx1, hx2⟩ := List.mem_range'_1.mp hx
      simp [hall x (by omega) hx1]
    simp [MultiTerminalManager.spawnTerminal, hnone]

/-- Witness for C5: with units 1..7 all busy, a unit-less spawn reports
capacity exhaustion and leaves the state unchanged. -/
theorem C5_witness_capacity :
    MultiTerminalManager.spawnTerminal allBusyManager none none
      = (allBusyManager, none, [Effect.errorCapacity]) :=
  (C5_nextFreeUnit_scan_and_capacity allBusyManager).2.2 none (by decide)

/-- C6: if spawn reserves a free unit `u` (`inUse = true` before
`window.open`) and the window creation fails, the reservation is rolled
back so the state is exactly as before, an error is reported to the
caller (null return plus the failure report), and a subsequent
`findNextAvailableUnit` can again return `u` (it does whenever `u` is the
least free secondary unit). -/
theorem C6_spawn_rollback_on_open_failure (st : ManagerState) (u : Nat) (t : TerminalInfo)
    (hu : st.terms u = some t) (hfree : t.inUse = false) :
    MultiTerminalManager.spawnTerminal st (some u) none
      = (st, none, [Effect.openWindow u, Effect.errorOpenFailed]) ∧
    (1 ≤ u → u < MultiTerminalManager.maxUnits →
      (∀ v, v < u → 1 ≤ v → MultiTerminalManager.unitFreeB st v = false) →
      MultiTerminalManager.findNextAvailableUnit
          (MultiTerminalManager.spawnTerminal st (some u) none).1 = some u) := by
  have ht : ({ t with inUse := false } : TerminalInfo) = t := by
    cases t
    simp_all
  have hstate : MultiTerminalManager.spawnTerminal st (some u) none
      = (st, none, [Effect.openWindow u, Effect.errorOpenFailed]) := by
    simp only [MultiTerminalManager.spawnTerminal, hu, hfree, Bool.false_and,
      Bool.false_eq_true, if_false, ht, updMap_self st.terms u t hu]
  refine ⟨hstate, ?_⟩
  intro h1 h2 hfirst
  rw [hstate]
  have hufree : MultiTerminalManager.unitFreeB st u = true := by
    simp [MultiTerminalManager.unitFreeB, hu, hfree]
  have hm8 : MultiTerminalManager.maxUnits = 8 := rfl
  exact find?_range'_of_first 7 1 u h1 (by omega) hufree
    fun v hv1 hv2 => hfirst v hv2 hv1

/-- Witness for C6: spawning free unit 1 on a fresh manager with the popup
blocked rolls back fully, and unit 1 is the next free unit again. -/
theorem C6_spawn_rollback_on_open_failure_witness :
    MultiTerminalManager.spawnTerminal freshManager (some 1) none
      = (freshManager, none, [Effect.openWindow 1, Effect.errorOpenFailed]) ∧
    MultiTerminalManager.findNextAvailableUnit
        (MultiTerminalManager.spawnTerminal freshManager (some 1) none).1 = some 1 :=
  ⟨(C6_spawn_rollback_on_open_failure freshManager 1
      (MultiTerminalManager.initialTerminalInfo 1) rfl rfl).1,
   (C6_spawn_rollback_on_open_failure freshManager 1
      (MultiTerminalManager.initialTerminalInfo 1) rfl rfl).2
     (by decide) (by decide) (by decide)⟩

/-- Witness for C9: re-spawning the busy unit 3 returns the stored handle 7
and changes nothing. -/
theorem C9_spawn_on_busy_secondary_is_noop_witness :
    MultiTerminalManager.spawnTerminal spawned3Manager (some 3) (some 9)
      = (spawned3Manager, some 7, [Effect.warnAlreadyInUse 3]) :=
  C9_spawn_on_busy_secondary_is_noop spawned3Manager 3
    { unit := 3, name := "TTY3", inUse := true, isPrimary := false, windowRef := some 7 }
    (some 9) rfl rfl rfl

theorem primaryFlagsWF_updMap {f : Nat → Option TerminalInfo} {k : Nat}
    {told tnew : TerminalInfo} (hk : f k = some told)
    (hp : tnew.isPrimary = told.isPrimary) (h : primaryFlagsWF f) :
    primaryFlagsWF (updMap f k tnew) := by
  intro i t hit
  by_cases hik : i = k
  · subst hik
    rw [updMap_same] at hit
    injection hit with he
    rw [← he, hp]
    exact h i told hk
  · rw [updMap_other _ _ _ _ hik] at hit
    exact h i t hit

theorem unitZeroPresent_updMap {f : Nat → Option TerminalInfo} {k : Nat}
    {tnew : TerminalInfo} (h : unitZeroPresent f) :
    unitZeroPresent (updMap f k tnew) := by
  obtain ⟨t, ht⟩ := h
  by_cases hk : MultiTerminalManager.primaryUnit = k
  · exact ⟨tnew, by rw [hk, updMap_same]⟩
  · exact ⟨t, by rw [updMap_other _ _ _ _ hk]; exact ht⟩

theorem unitZeroInUse_updMap_ne {f : Nat → Option TerminalInfo} {k : Nat}
    {tnew : TerminalInfo} (hk : k ≠ MultiTerminalManager.primaryUnit)
    (h : unitZeroInUse f) : unitZeroInUse (updMap f k tnew) := by
  obtain ⟨t, ht, hin⟩ := h
  refine ⟨t, ?_, hin⟩
  rw [updMap_other _ _ _ _ fun he => hk he.symm]
  exact ht

theorem spawnTerminal_mgrInv (st : ManagerState) (u? : Option Nat) (o : Option WindowHandle)
    (h : mgrInv st.terms) :
    mgrInv (MultiTerminalManager.spawnTerminal st u? o).1.terms ∧
    (unitZeroInUse st.terms →
      ¬(u? = some MultiTerminalManager.primaryUnit ∧ o = none) →
      unitZeroInUse (MultiTerminalManager.spawnTerminal st u? o).1.terms) := by
  cases u? with
  | none =>
    cases hF : MultiTerminalManager.findNextAvailableUnit st with
    | none =>
      simp only [MultiTerminalManager.spawnTerminal, hF]
      exact ⟨h, fun hl _ => hl⟩
    | some u =>
      have hu1 : 1 ≤ u := (find?_range'_first 7 1 u hF).1
      have hu0 : u ≠ MultiTerminalManager.primaryUnit := by
        simp only [MultiTerminalManager.primaryUnit]
        omega
      cases hT : st.terms u with
      | none =>
        simp only [MultiTerminalManager.spawnTerminal, hF, hT]
        exact ⟨h, fun hl _ => hl⟩
      | some term =>
        by_cases hbusy : (term.inUse && !term.isPrimary) = true
        · simp only [MultiTerminalManager.spawnTerminal, hF, hT, hbusy, if_true]
          exact ⟨h, fun hl _ => hl⟩
        · cases o with
          | some w =>
            simp only [MultiTerminalManager.spawnTerminal, hF, hT, hbusy, if_false,
              Bool.false_eq_true]
            exact ⟨⟨primaryFlagsWF_updMap hT rfl h.1, unitZeroPresent_updMap h.2⟩,
              fun hl _ => unitZeroInUse_updMap_ne hu0 hl⟩
          | none =>
            simp only [MultiTerminalManager.spawnTerminal, hF, hT, hbusy, if_false,
              Bool.false_eq_true]
            exact ⟨⟨primaryFlagsWF_updMap hT rfl h.1, unitZeroPresent_updMap h.2⟩,
              fun hl _ => unitZeroInUse_updMap_ne hu0 hl⟩
  | some u =>
    cases hT : st.terms u with
    | none =>
      simp only [MultiTerminalManager.spawnTerminal, hT]
      exact ⟨h, fun hl _ => hl⟩
    | some term =>
      by_cases hbusy : (term.inUse && !term.isPrimary) = true
      · simp only [MultiTerminalManager.spawnTerminal, hT, hbusy, if_true]
        exact ⟨h, fun hl _ => hl⟩
      · cases o with
        | some w =>
          simp only [MultiTerminalManager.spawnTerminal, hT, hbusy, if_false,
            Bool.false_eq_true]
          refine ⟨⟨primaryFlagsWF_updMap hT rfl h.1, unitZeroPresent_updMap h.2⟩,
            fun hl _ => ?_⟩
          by_cases hu0 : u = MultiTerminalManager.primaryUnit
          · subst hu0
            exact ⟨{ term with inUse := true, windowRef := some w }, updMap_same _ _ _, rfl⟩
          · exact unitZeroInUse_updMap_ne hu0 hl
        | none =>
          simp only [MultiTerminalManager.spawnTerminal, hT, hbusy, if_false,
            Bool.false_eq_true]
          refine ⟨⟨primaryFlagsWF_updMap hT rfl h.1, unitZeroPresent_updMap h.2⟩,
            fun hl hne => ?_⟩
          have hu0 : u ≠ MultiTerminalManager.primaryUnit := by
            intro he
            apply hne
            simp [he]
          exact unitZeroInUse_updMap_ne hu0 hl

theorem closeTerminal_mgrInv (st : ManagerState) (u : Nat) (h : mgrInv st.terms) :
    mgrInv (MultiTerminalManager.closeTerminal st u).1.terms ∧
    (unitZeroInUse st.terms →
      unitZeroInUse (MultiTerminalManager.closeTerminal st u).1.terms) := by
  cases hT : st.terms u with
  | none =>
    simp only [MultiTerminalManager.closeTerminal, hT]
    exact ⟨h, id⟩
  | some term =>
    by_cases hp : term.isPrimary = true
    · simp only [MultiTerminalManager.closeTerminal, hT, hp, if_true]
      exact ⟨h, id⟩
    · have hpf : term.isPrimary = false := by simpa using hp
      simp only [MultiTerminalManager.closeTerminal, hT, hpf, if_false, Bool.false_eq_true]
      refine ⟨⟨primaryFlagsWF_updMap hT hpf.symm h.1, unitZeroPresent_updMap h.2⟩,
        fun hl => ?_⟩
      have hu0 : u ≠ MultiTerminalManager.primaryUnit := by
        intro he
        have hflag := h.1 u term hT
        rw [he] at hflag
        simp [hpf] at hflag
      exact unitZeroInUse_updMap_ne hu0 hl

theorem closeAllLoop_mgrInv : ∀ (l : List Nat) (st : ManagerState), mgrInv st.terms →
    mgrInv (MultiTerminalManager.closeAllLoop l st).1.terms ∧
    (unitZeroInUse st.terms →
      unitZeroInUse (MultiTerminalManager.closeAllLoop l st).1.terms) := by
  intro l
  induction l with
  | nil => intro st h; exact ⟨h, id⟩
  | cons i rest ih =>
    intro st h
    cases hT : st.terms i with
    | none =>
      simp only [MultiTerminalManager.closeAllLoop, hT]
      exact ih st h
    | some term =>
      by_cases hc : (!term.isPrimary && term.inUse) = true
      · simp only [MultiTerminalManager.closeAllLoop, hT, hc, if_true]
        obtain ⟨h1, h2⟩ := closeTerminal_mgrInv st term.unit h
        obtain ⟨g1, g2⟩ := ih _ h1
        exact ⟨g1, fun hl => g2 (h2 hl)⟩
      · simp only [MultiTerminalManager.closeAllLoop, hT, hc, if_false, Bool.false_eq_true]
        exact ih st h

theorem destroy_mgrInv (st : ManagerState) (h : mgrInv st.terms) :
    mgrInv (MultiTerminalManager.destroy st).1.terms ∧
    (unitZeroInUse st.terms →
      unitZeroInUse (MultiTerminalManager.destroy st).1.terms) :=
  closeAllLoop_mgrInv (List.range MultiTerminalManager.maxUnits) st h

theorem applyOp_mgrInv (st : ManagerState) (op : MOp) (h : mgrInv st.terms) :
    mgrInv (applyOp st op).terms ∧
    (unitZeroInUse st.terms →
      op ≠ MOp.spawn (some MultiTerminalManager.primaryUnit) none →
      unitZeroInUse (applyOp st op).terms) := by
  cases op with
  | spawn u? o =>
    obtain ⟨g1, g2⟩ := spawnTerminal_mgrInv st u? o h
    refine ⟨g1, fun hl hne => g2 hl ?_⟩
    rintro ⟨rfl, rfl⟩
    exact hne rfl
  | close u =>
    obtain ⟨g1, g2⟩ := closeTerminal_mgrInv st u h
    exact ⟨g1, fun hl _ => g2 hl⟩
  | destroy =>
    obtain ⟨g1, g2⟩ := destroy_mgrInv st h
    exact ⟨g1, fun hl _ => g2 hl⟩
  | recv m =>
    exact ⟨h, fun hl _ => hl⟩

theorem foldl_mgrInv : ∀ (ops : List MOp) (st : ManagerState), mgrInv st.terms →
    mgrInv (ops.foldl applyOp st).terms ∧
    (unitZeroInUse st.terms →
      MOp.spawn (some MultiTerminalManager.primaryUnit) none ∉ ops →
      unitZeroInUse (ops.foldl applyOp st).terms) := by
  intro ops
  induction ops with
  | nil => intro st h; exact ⟨h, fun hl _ => hl⟩
  | cons op rest ih =>
    intro st h
    rw [List.foldl_cons]
    obtain ⟨g1, g2⟩ := applyOp_mgrInv st op h
    obtain ⟨k1, k2⟩ := ih (applyOp st op) g1
    refine ⟨k1, fun hl hmem => ?_⟩
    have hop : op ≠ MOp.spawn (some MultiTerminalManager.primaryUnit) none := by
      intro he
      exact hmem (by rw [he]; exact List.mem_cons_self _ _)
    exact k2 (g2 hl hop) fun hm => hmem (List.mem_cons_of_mem _ hm)

theorem new_mgrInv (tabId : String) :
    mgrInv (MultiTerminalManager.new tabId).1.terms ∧
    unitZeroInUse (MultiTerminalManager.new tabId).1.terms := by
  refine ⟨⟨?_, MultiTerminalManager.initialTerminalInfo 0, rfl⟩,
    MultiTerminalManager.initialTerminalInfo 0, rfl, rfl⟩
  intro i t hit
  by_cases h8 : i < MultiTerminalManager.maxUnits
  · have hit' : some (MultiTerminalManager.initialTerminalInfo i) = some t := by
      rw [← hit]
      simp only [MultiTerminalManager.new, if_pos h8]
    injection hit' with he
    rw [← he]
    rfl
  · have hit' : (none : Option TerminalInfo) = some t := by
      rw [← hit]
      simp only [MultiTerminalManager.new, if_neg h8]
    cases hit'

theorem runOps_mgrInv (tabId : String) (ops : List MOp) :
    mgrInv (runOps tabId ops).terms ∧
    (MOp.spawn (some MultiTerminalManager.primaryUnit) none ∉ ops →
      unitZeroInUse (runOps tabId ops).terms) := by
  obtain ⟨h1, h2⟩ := new_mgrInv tabId
  obtain ⟨g1, g2⟩ := foldl_mgrInv ops (MultiTerminalManager.new tabId).1 h1
  exact ⟨g1, fun hm => g2 h2 hm⟩

/-- C2 (amended): in every state reachable by any sequence of manager
operations, exactly one session record has `isPrimary == true` and it is
unit 0; and unit 0's `inUse` flag is true in every state reachable without
a `spawnTerminal(0)` call whose window creation fails — that rollback path
is the one operation that can clear unit 0's `inUse` flag. -/
theorem C2_exactly_one_primary_and_unit0_in_use (tabId : String) (ops : List MOp) :
    (∃ t, (runOps tabId ops).terms MultiTerminalManager.primaryUnit = some t ∧
        t.isPrimary = true) ∧
    (∀ i t, (runOps tabId ops).terms i = some t → t.isPrimary = true →
        i = MultiTerminalManager.primaryUnit) ∧
    (MOp.spawn (some MultiTerminalManager.primaryUnit) none ∉ ops →
      ∃ t, (runOps tabId ops).terms MultiTerminalManager.primaryUnit = some t ∧
        t.inUse = true) := by
  obtain ⟨⟨hwf, hpres⟩, hlive⟩ := runOps_mgrInv tabId ops
  refine ⟨?_, ?_, hlive⟩
  · obtain ⟨t, ht⟩ := hpres
    refine ⟨t, ht, ?_⟩
    have := hwf _ t ht
    simpa using this
  · intro i t hit hp
    have hflag := hwf i t hit
    rw [hp] at hflag
    have hbeq : (i == MultiTerminalManager.primaryUnit) = true := hflag.symm
    simpa using hbeq

/-- Witness for C2: instantiation at the reachable sequence spawning
unit 3, where the excluded operation does not occur. -/
theorem C2_exactly_one_primary_and_unit0_in_use_witness :
    (∃ t, (runOps "tab-primo" [MOp.spawn (some 3) (some 7)]).terms
        MultiTerminalManager.primaryUnit = some t ∧ t.isPrimary = true) ∧
    (∃ t, (runOps "tab-primo" [MOp.spawn (some 3) (some 7)]).terms
        MultiTerminalManager.primaryUnit = some t ∧ t.inUse = true) :=
  ⟨(C2_exactly_one_primary_and_unit0_in_use "tab-primo" [MOp.spawn (some 3) (some 7)]).1,
   (C2_exactly_one_primary_and_unit0_in_use "tab-primo" [MOp.spawn (some 3) (some 7)]).2.2
     (by decide)⟩

/-- C2 counterexample: after `spawnTerminal(0)` with the popup blocked —
a legal operation sequence — the reachable state has unit 0's `inUse` flag
false, refuting the claimed invariant over all operation sequences. -/
theorem C2_counterexample_unit0_released :
    ((runOps "tab-primo" [MOp.spawn (some 0) none]).terms 0).map TerminalInfo.inUse
      = some false := rfl

/-- C1 (amended): every byte `vt52Put` emits is delivered first to the
original renderer (a tee); a byte for the primary unit 0, for a unit with
no registry record, or for a unit not marked `inUse` produces no bus
message; a byte for an in-use secondary unit is additionally published as
an `output` message `{unit, payload}` after the local delivery. -/
theorem C1_output_local_render_and_broadcast (st : ManagerState) (u ch : Nat)
    (hwf : primaryFlagsWF st.terms) (hsp : st.sync.isPrimary = true) :
    (MultiTerminalManager.interceptedVt52Put st u ch).head?
        = some (Effect.renderLocal u ch) ∧
    (u = MultiTerminalManager.primaryUnit →
      MultiTerminalManager.interceptedVt52Put st u ch = [Effect.renderLocal u ch]) ∧
    (∀ t, st.terms u = some t → t.inUse = false →
      MultiTerminalManager.interceptedVt52Put st u ch = [Effect.renderLocal u ch]) ∧
    (st.terms u = none →
      MultiTerminalManager.interceptedVt52Put st u ch = [Effect.renderLocal u ch]) ∧
    (∀ t, st.terms u = some t → t.inUse = true → u ≠ MultiTerminalManager.primaryUnit →
      MultiTerminalManager.interceptedVt52Put st u ch
        = [Effect.renderLocal u ch, Effect.send (outputMessage st.sync.tabId u ch)]) := by
  refine ⟨?_, ?_, ?_, ?_, ?_⟩
  · simp [MultiTerminalManager.interceptedVt52Put]
  · intro hu
    subst hu
    cases hT : st.terms MultiTerminalManager.primaryUnit with
    | none => simp [MultiTerminalManager.interceptedVt52Put, hT]
    | some t =>
      have hp := hwf _ t hT
      simp [MultiTerminalManager.interceptedVt52Put, hT, hp]
  · intro t hT hin
    simp [MultiTerminalManager.interceptedVt52Put, hT, hin]
  · intro hT
    simp [MultiTerminalManager.interceptedVt52Put, hT]
  · intro t hT hin hu
    have hp := hwf _ t hT
    have hb : (u == MultiTerminalManager.primaryUnit) = false := by
      simpa using hu
    rw [hb] at hp
    simp [MultiTerminalManager.interceptedVt52Put, hT, hin, hp,
      TerminalSync.broadcastOutput, hsp, outputMessage]

/-- Witness for C1: with unit 3 spawned and in use, a byte for unit 3 is
rendered locally and then published. -/
theorem C1_output_local_render_and_broadcast_witness :
    MultiTerminalManager.interceptedVt52Put spawned3Manager 3 65
      = [Effect.renderLocal 3 65, Effect.send (outputMessage "tab-primo" 3 65)] :=
  (C1_output_local_render_and_broadcast spawned3Manager 3 65
      (runOps_mgrInv "tab-primo" [MOp.spawn (some 3) (some 7)]).1.1 rfl).2.2.2.2
    { unit := 3, name := "TTY3", inUse := true, isPrimary := false, windowRef := some 7 }
    rfl rfl (by decide)

/-- C1 counterexample: on a fresh manager, a byte for unit 3 (a unit other
than the primary's own) produces no bus message, because unit 3 is not in
use — the claim's "for every other destination unit, an output message is
published" fails. -/
theorem C1_counterexample_no_broadcast_when_not_in_use :
    (3 : Nat) ≠ MultiTerminalManager.primaryUnit ∧
    MultiTerminalManager.interceptedVt52Put freshManager 3 65
      = [Effect.renderLocal 3 65] :=
  ⟨by decide, by decide⟩

end UnixV4
